import Mathlib

set_option maxRecDepth 100000

namespace WritingCoach

/-!
Shallow embedding of the writing-coach pipeline (`src/coach.py`).

Python strings are modelled as lists of characters (`PyStr`); Python floats as
exact rationals, with `round(x, n)` idealised as exact half-up rounding to `n`
decimals (CPython rounds ties of binary floats to even, which no claim depends
on); Python functions that may raise are modelled with `Except` outcomes.  The
two generative-text service calls, the spreadsheet store and the HTML
presentation layer (`markdown_to_html`) are external collaborators and are
modelled as oracle parameters and outcome values; character-class functions
(`isupper`, `lower`) are modelled on the ASCII range the lexicons and tags use.
-/

/-- A Python string, as its list of characters. -/
abbrev PyStr := List Char

/-- A spreadsheet row: a list of cell strings. -/
abbrev Row := List PyStr

/-- The whitespace characters of Python `str.isspace` relevant here. -/
def pyIsSpace (c : Char) : Bool :=
  c = ' ' || c = '\t' || c = '\n' || c = '\r' || c = '\x0b' || c = '\x0c'

/-- Python `s.lower()` on the ASCII range. -/
def pyLower (s : PyStr) : PyStr := s.map Char.toLower

/-- Strip the characters satisfying `p` from both ends of a string. -/
def stripEnds (p : Char → Bool) (s : PyStr) : PyStr :=
  ((s.dropWhile p).reverse.dropWhile p).reverse

/-- Python `s.strip()` with no argument: whitespace stripped at both ends. -/
def pyStripWsEnds (s : PyStr) : PyStr := stripEnds pyIsSpace s

/-- The ASCII apostrophe (code 39), kept out of literals. -/
def apos : Char := Char.ofNat 39

/-- The character set of the sources strip call on word tokens. -/
def punctChars : List Char := ['.', ',', '!', '?', ';', ':', '"', apos]

/-- Python `s.strip(punctuation)` as used on lowercased word tokens. -/
def pyStripPunct (s : PyStr) : PyStr := stripEnds (fun c => punctChars.contains c) s

/-- Helper for `pySplitWs`: accumulates the current token reversed. -/
def pySplitWsAux (cur : PyStr) : PyStr → List PyStr
  | [] => if cur = [] then [] else [cur.reverse]
  | c :: cs =>
    if pyIsSpace c then
      if cur = [] then pySplitWsAux [] cs else cur.reverse :: pySplitWsAux [] cs
    else pySplitWsAux (c :: cur) cs

/-- Python `s.split()` with no separator: split on runs of whitespace,
producing no empty tokens. -/
def pySplitWs (s : PyStr) : List PyStr := pySplitWsAux [] s

/-- Split at every character satisfying `p`, keeping empty pieces.  Python
`re.split` with a one-class `+`-run pattern differs from this only by the empty
pieces produced at delimiter runs, and every use below filters those out. -/
def splitOnPred (p : Char → Bool) : PyStr → List PyStr
  | [] => [[]]
  | c :: cs =>
    if p c then [] :: splitOnPred p cs
    else
      match splitOnPred p cs with
      | h :: t => (c :: h) :: t
      | [] => [[c]]

/-- Python `s.split(c)` for a one-character separator (keeps empty pieces). -/
def splitOnChar (c : Char) (s : PyStr) : List PyStr := splitOnPred (fun d => d == c) s

/-- Join pieces with a one-character separator: the inverse of `splitOnChar`. -/
def joinWith (c : Char) : List PyStr → PyStr
  | [] => []
  | [x] => x
  | x :: xs => x ++ c :: joinWith c xs

/-- Python `sep.join(parts)`. -/
def pyJoin (sep : PyStr) : List PyStr → PyStr
  | [] => []
  | [x] => x
  | x :: xs => x ++ sep ++ pyJoin sep xs

/-- Python `s.replace(pat, repl)`: replace every occurrence, scanning left to
right without rescanning the replacement.  (The empty pattern, which Python
treats specially, never occurs in this program.) -/
def replaceAll (pat repl : PyStr) : PyStr → PyStr
  | [] => []
  | c :: cs =>
    if pat.isPrefixOf (c :: cs) ∧ pat ≠ [] then
      repl ++ replaceAll pat repl (cs.drop (pat.length - 1))
    else c :: replaceAll pat repl cs
termination_by s => s.length
decreasing_by
  all_goals simp [List.length_drop]
  omega

/-- `re.sub` with an alternation of literal patterns and empty replacement: at
each position the alternatives are tried in order; on a match the matched text
is dropped and scanning resumes after it. -/
def reSubAlts (pats : List PyStr) : PyStr → PyStr
  | [] => []
  | c :: cs =>
    match pats.find? (fun p => !p.isEmpty && p.isPrefixOf (c :: cs)) with
    | some p => reSubAlts pats (cs.drop (p.length - 1))
    | none => c :: reSubAlts pats cs
termination_by s => s.length
decreasing_by
  all_goals simp [List.length_drop]
  omega

/-- Python `needle in hay` (substring containment). -/
def strContains (hay needle : PyStr) : Bool :=
  needle.isPrefixOf hay ||
    match hay with
    | [] => false
    | _ :: t => strContains t needle

/-- Python `l[-k:]`: the last `k` elements for `k > 0`, the whole list for `k = 0`. -/
def pySliceFromNeg (k : Nat) (l : List α) : List α :=
  if k = 0 then l else l.drop (l.length - k)

/-- Python `round(x, n)` idealised over exact rationals: round `x` to `n`
decimal places, ties up. -/
def pyRound (x : ℚ) (n : ℕ) : ℚ := ((round (x * 10 ^ n) : ℤ) : ℚ) / 10 ^ n

/-- Floor of the square root of a nonnegative rational `p / q`:
`⌊√(p/q)⌋ = ⌊⌊√(p·q)⌋ / q⌋`. -/
def floorSqrtQ (x : ℚ) : ℕ := Nat.sqrt (x.num.toNat * x.den) / x.den

/-- Python `round(math.sqrt x, 1)` idealised over exact rationals: the multiple
of one tenth nearest to `√x` (ties up), computed by integer square-root
comparisons.  Only the sentence-variety metric uses this. -/
def roundSqrt1 (x : ℚ) : ℚ :=
  let k := floorSqrtQ (100 * x)
  let r : ℕ := if ((2 * k + 1 : ℕ) : ℚ) ^ 2 ≤ 400 * x then k + 1 else k
  (r : ℚ) / 10

/-! ### Lexicon tables (`ABSTRACT_WORDS`, `QUALIFIER_WORDS`, `SCENE_INDICATORS`) -/

def ABSTRACT_WORDS : List PyStr :=
  (["concept", "idea", "notion", "theory", "principle", "aspect", "factor",
    "element", "system", "process", "approach", "framework", "perspective",
    "context", "dynamic", "paradigm", "narrative", "discourse", "phenomenon",
    "essence", "nature", "reality", "truth", "value", "belief", "understanding",
    "experience", "knowledge", "awareness", "consciousness", "existence",
    "relationship", "situation", "condition", "environment", "culture", "society",
    "community", "structure", "institution", "development", "potential", "impact",
    "influence", "significance", "importance", "relevance", "implication"]).map String.data

def QUALIFIER_WORDS : List PyStr :=
  (["perhaps", "maybe", "possibly", "probably", "arguably", "seemingly",
    "apparently", "somewhat", "quite", "rather", "fairly", "relatively",
    "generally", "usually", "often", "sometimes", "occasionally", "largely",
    "mostly", "mainly", "essentially", "basically", "fundamentally", "virtually",
    "nearly", "almost", "sort", "kind", "way", "unsubstantiated", "subjective",
    "opinion", "think", "believe", "feel", "suppose", "guess", "reckon",
    "suspect", "wonder", "seem", "appear"]).map String.data

def SCENE_INDICATORS : List PyStr :=
  (["said", "walked", "sat", "stood", "looked", "heard", "saw", "felt",
    "touched", "smelled", "tasted", "opened", "closed", "moved", "turned",
    "smiled", "laughed", "cried", "whispered", "shouted", "nodded", "shook",
    "reached", "grabbed", "placed", "picked", "put", "took", "held", "carried",
    "entered", "left", "arrived", "stopped", "started", "began", "watched",
    "noticed", "realized", "remembered", "forgot", "asked", "answered",
    "replied", "told", "showed", "pointed", "pulled", "pushed"]).map String.data

/-! ### The Metrics Engine (`compute_metrics`) -/

/-- `words_lower = [w.lower().strip(punctuation) for w in words]`. -/
def words_lower (words : List PyStr) : List PyStr :=
  words.map (fun w => pyStripPunct (pyLower w))

def abstract_count (wl : List PyStr) : Nat :=
  wl.countP (fun w => ABSTRACT_WORDS.contains w)

def qualifier_count (wl : List PyStr) : Nat :=
  wl.countP (fun w => QUALIFIER_WORDS.contains w)

def scene_verb_count (wl : List PyStr) : Nat :=
  wl.countP (fun w => SCENE_INDICATORS.contains w)

/-- The stopword set of the concrete-count heuristic. -/
def concrete_small_stop : List PyStr := (["i", "the", "a", "an"]).map String.data

/-- Words at index `> 0` whose first character is upper case and whose
lowercasing is not a small stopword (the codes proper-noun proxy).  Tokens of
`str.split()` are nonempty, so the index-0 character is always present; the
`headD` default covers only that unreachable empty case. -/
def concrete_count (words : List PyStr) : Nat :=
  words.enum.countP (fun iw =>
    (iw.1 != 0) && (iw.2.headD ' ').isUpper &&
      !(concrete_small_stop.contains (pyLower iw.2)))

/-- The sentence delimiters of `re.split` in `compute_metrics`. -/
def sentence_delims (c : Char) : Bool := c = '.' || c = '!' || c = '?'

/-- `sentences`: pieces between delimiter characters, stripped, kept when
nonempty with more than 2 whitespace tokens. -/
def sentences (text : PyStr) : List PyStr :=
  (splitOnPred sentence_delims text).filterMap (fun s =>
    if pyStripWsEnds s ≠ [] ∧ 2 < (pySplitWs s).length then some (pyStripWsEnds s)
    else none)

/-- Per-sentence token counts, of sentences longer than one token. -/
def sentence_lengths (text : PyStr) : List Nat :=
  (sentences text).filterMap (fun s =>
    if 1 < (pySplitWs s).length then some (pySplitWs s).length else none)

/-- Metric 2: population standard deviation of sentence lengths, rounded to one
decimal; `0` with fewer than 3 qualifying sentences. -/
def variety_score (text : PyStr) : ℚ :=
  let ls := sentence_lengths text
  if 2 < ls.length then
    let mean : ℚ := ((ls.sum : ℕ) : ℚ) / ls.length
    let variance : ℚ := (ls.map (fun l => ((l : ℕ) - mean : ℚ) ^ 2)).sum / ls.length
    roundSqrt1 variance
  else 0

/-- The stopword set of the `specificity` helper. -/
def specificity_stop : List PyStr :=
  (["i", "the", "a", "an", "but", "and", "or"]).map String.data

/-- The proper-noun-like test inside `specificity`: index above 0, capitalized
first character, lowercased form not a stopword. -/
def specificity_proper (iw : Nat × PyStr) : Bool :=
  (iw.1 != 0) && (iw.2.headD ' ').isUpper && !(specificity_stop.contains (pyLower iw.2))

/-- The `specificity` helper of metric 5: (proper-noun-like + scene-verb −
abstract-lexicon tokens) divided by the token count floored at 1. -/
def specificity (word_list : List PyStr) : ℚ :=
  let wl := words_lower word_list
  let proper := word_list.enum.countP specificity_proper
  let scene := scene_verb_count wl
  let abstract := abstract_count wl
  ((proper : ℚ) + (scene : ℚ) - (abstract : ℚ)) / ((max word_list.length 1 : ℕ) : ℚ)

/-- The stopword, weekday and month set of the proper-noun density metric. -/
def proper_noun_stop : List PyStr :=
  (["i", "the", "a", "an", "but", "and", "or", "so", "yet",
    "for", "nor", "in", "on", "at", "to", "by", "if", "as",
    "monday", "tuesday", "wednesday", "thursday", "friday",
    "saturday", "sunday", "january", "february", "march",
    "april", "may", "june", "july", "august", "september",
    "october", "november", "december"]).map String.data

/-- Metric 6 numerator: words at index `> 0`, longer than one character,
capitalized, not in the extended stopword set. -/
def proper_nouns (words : List PyStr) : List PyStr :=
  words.enum.filterMap (fun iw =>
    if (iw.1 != 0) && decide (1 < iw.2.length) && (iw.2.headD ' ').isUpper &&
        !(proper_noun_stop.contains (pyLower iw.2)) then some iw.2
    else none)

/-- The Metrics Engine scorecard.  The Python function returns either the empty
dict or a dict with all eight keys; `Option` models that emptiness. -/
structure Scorecard where
  word_count : Nat
  concrete_abstract_ratio : ℚ
  sentence_variety_sd : ℚ
  qualifier_per_500 : ℚ
  scene_ratio_pct : ℚ
  opening_strong : Bool
  closing_strong : Bool
  proper_nouns_per_500 : ℚ
deriving DecidableEq

/-- `compute_metrics`: all six writing metrics.  Returns no scorecard for
texts of fewer than 50 whitespace tokens. -/
def compute_metrics (text : PyStr) : Option Scorecard :=
  let words := pySplitWs text
  let word_count := words.length
  if word_count < 50 then none
  else
    let wl := words_lower words
    let concrete_ratio := pyRound ((concrete_count words : ℚ) / ((max (abstract_count wl) 1 : ℕ) : ℚ)) 2
    let qualifier_rate := pyRound (((qualifier_count wl : ℚ) / (word_count : ℚ)) * 500) 1
    let scene_rate := pyRound (((scene_verb_count wl : ℚ) / (word_count : ℚ)) * 100) 1
    let opening := words.take 50
    let closing := pySliceFromNeg 50 words
    let middle := if 100 < word_count then (words.drop 50).take (word_count - 100) else words
    let opening_score := pyRound (specificity opening) 3
    let closing_score := pyRound (specificity closing) 3
    let middle_score := if middle ≠ [] then pyRound (specificity middle) 3 else 0
    let proper_rate := pyRound (((proper_nouns words).length : ℚ) / (word_count : ℚ) * 500) 1
    some {
      word_count := word_count
      concrete_abstract_ratio := concrete_ratio
      sentence_variety_sd := variety_score text
      qualifier_per_500 := qualifier_rate
      scene_ratio_pct := scene_rate
      opening_strong := decide (middle_score ≤ opening_score)
      closing_strong := decide (middle_score ≤ closing_score)
      proper_nouns_per_500 := proper_rate
    }

/-- Modelled from the spec for claim C6: the middle slice is always the tokens
excluding the first 50 and the last 50, with no special case at or below 100
tokens. -/
def spec_middle (words : List PyStr) : List PyStr :=
  (words.drop 50).take (words.length - 100)

/-- Modelled from the spec for claim C6: opening and closing strength judged
against the specificity of the always-remaining middle slice, compared at the
same 3-decimal precision the code uses (the spec fixes no precision; the
divergence under test is the middle slice, not rounding). -/
def spec_strength (text : PyStr) : Bool × Bool :=
  let words := pySplitWs text
  let op := pyRound (specificity (words.take 50)) 3
  let cl := pyRound (specificity (pySliceFromNeg 50 words)) 3
  let ms := pyRound (specificity (spec_middle words)) 3
  (decide (ms ≤ op), decide (ms ≤ cl))

/-! ### Formatting adapters (`format_metrics_for_email`, `format_metrics_for_sheet`) -/

/-- Display rendering of a rational (Python float formatting idealised; no
claim depends on the rendered digits). -/
def ratToPyStr (q : ℚ) : PyStr := (toString q).data

/-- Python `str` of an integer count. -/
def natToPyStr (n : Nat) : PyStr := (toString n).data

/-- `format_metrics_for_email`: the metrics panel for the email body, empty for
an empty scorecard. -/
def format_metrics_for_email (m : Option Scorecard) : PyStr :=
  match m with
  | none => []
  | some m =>
    joinWith '\n'
      [("**DRAFT METRICS** (").data ++ natToPyStr m.word_count ++ (" words)").data,
       [],
       ("Concrete-Abstract Ratio: ").data ++ ratToPyStr m.concrete_abstract_ratio ++ [' '] ++
         (if (3 / 2 : ℚ) < m.concrete_abstract_ratio then ("↑ good").data
          else ("↓ too abstract").data),
       ("Sentence Variety: ").data ++ ratToPyStr m.sentence_variety_sd ++ (" SD ").data ++
         (if (6 : ℚ) < m.sentence_variety_sd then ("↑ good rhythm").data
          else ("↓ monotonous — vary length").data),
       ("Qualifier Density: ").data ++ ratToPyStr m.qualifier_per_500 ++ ("/500 words ").data ++
         (if (5 : ℚ) < m.qualifier_per_500 then ("↑ hedging too much — cut qualifiers").data
          else ("↓ good").data),
       ("Scene Ratio: ").data ++ ratToPyStr m.scene_ratio_pct ++ ("% ").data ++
         (if (30 : ℚ) ≤ m.scene_ratio_pct then ("↑ above target").data
          else ("↓ below 30% target — more scene").data),
       ("Opening Strength: ").data ++ (if m.opening_strong then ("✓").data else ("✗").data) ++
         [' '] ++ (if m.opening_strong then ("strong").data
                   else ("weaker than middle — rewrite your opening").data),
       ("Closing Strength: ").data ++ (if m.closing_strong then ("✓").data else ("✗").data) ++
         [' '] ++ (if m.closing_strong then ("strong").data
                   else ("weaker than middle — rewrite your ending (W1)").data),
       ("Proper Noun Specificity: ").data ++ ratToPyStr m.proper_nouns_per_500 ++
         ("/500 words ").data ++
         (if (8 : ℚ) < m.proper_nouns_per_500 then ("↑ specific").data
          else ("↓ too vague — name people, places, things").data)]

/-- `format_metrics_for_sheet`: the flat cell list for the session-log row.
An empty scorecard yields `[""] * 7`; a scored draft yields eight cells.
(The non-empty dict always carries all eight keys, so the `m.get` defaults of
the source never fire there.) -/
def format_metrics_for_sheet (m : Option Scorecard) : List PyStr :=
  match m with
  | none => List.replicate 7 []
  | some m =>
    [natToPyStr m.word_count,
     ratToPyStr m.concrete_abstract_ratio,
     ratToPyStr m.sentence_variety_sd,
     ratToPyStr m.qualifier_per_500,
     ratToPyStr m.scene_ratio_pct,
     if m.opening_strong then ("Yes").data else ("No").data,
     if m.closing_strong then ("Yes").data else ("No").data,
     ratToPyStr m.proper_nouns_per_500]

/-! ### The persistence store (`read_sheet`, `append_sheet`) -/

/-- `read_sheet`: the store read may fail (`fetched` is the outcome of the
`execute()` call); any failure is caught (and logged) and the empty history is
returned.  A successful read keeps only the last `max_rows` rows. -/
def read_sheet (fetched : Except PyStr (List Row)) (max_rows : Nat) : List Row :=
  match fetched with
  | Except.error _ => []
  | Except.ok rows => if max_rows < rows.length then pySliceFromNeg max_rows rows else rows

/-- `append_sheet`: the append attempt may fail; the failure is caught (and
logged), so the call itself always returns normally. -/
def append_sheet (attempt : Except PyStr Unit) : Except PyStr Unit :=
  match attempt with
  | Except.ok _ => Except.ok ()
  | Except.error _ => Except.ok ()

/-! ### The Session Memory Model (`build_memory_context`) -/

def FIRST_SESSION_SENTINEL : PyStr :=
  ("No previous sessions. This is the first session.").data

def MEMORY_HEADER : PyStr := ("MEMORY FROM PREVIOUS SESSIONS:\n").data

/-- The text contributed by one session row: nothing for a row of fewer than 5
cells, otherwise the summary line plus an optional metrics line. -/
def renderRow (row : Row) : PyStr :=
  if 5 ≤ row.length then
    let base := ("- ").data ++ row.getD 0 [] ++ (" | ").data ++ [apos] ++ row.getD 1 [] ++
      [apos] ++ (" | Patterns: ").data ++ row.getD 3 [] ++ (" | ").data ++
      row.getD 4 [] ++ ("\n").data
    if 5 < row.length ∧ row.getD 5 [] ≠ [] then
      base ++ ("  Metrics: ").data ++ row.getD 5 [] ++ ("\n").data
    else base
  else []

/-- The loop body of `build_memory_context`. -/
def memory_step (memory : PyStr) (row : Row) : PyStr :=
  if 5 ≤ row.length then
    let memory1 := memory ++ ("- ").data ++ row.getD 0 [] ++ (" | ").data ++ [apos] ++
      row.getD 1 [] ++ [apos] ++ (" | Patterns: ").data ++ row.getD 3 [] ++
      (" | ").data ++ row.getD 4 [] ++ ("\n").data
    if 5 < row.length ∧ row.getD 5 [] ≠ [] then
      memory1 ++ ("  Metrics: ").data ++ row.getD 5 [] ++ ("\n").data
    else memory1
  else memory

/-- `build_memory_context`: the bounded memory context over the last 4 session
records, or the first-session sentinel for an empty history. -/
def build_memory_context (session_log : List Row) : PyStr :=
  if session_log = [] then FIRST_SESSION_SENTINEL
  else (pySliceFromNeg 4 session_log).foldl memory_step MEMORY_HEADER

/-! ### Trailer parsing in `get_coaching_response` -/

def PATTERNS_TAG : PyStr := ("PATTERNS:").data
def SUMMARY_TAG : PyStr := ("SUMMARY:").data
def DOMINANT_TAG : PyStr := ("DOMINANT_WEAKNESS:").data

/-- The fixed fallback dominant-weakness code. -/
def W3_CODE : PyStr := ("W3").data

/-- A line the trailer scan extracts: one starting with one of the three tags. -/
def isTrailerLine (line : PyStr) : Bool :=
  PATTERNS_TAG.isPrefixOf line || SUMMARY_TAG.isPrefixOf line ||
    DOMINANT_TAG.isPrefixOf line

/-- One step of the reply scan: state is (patterns, summary, dominant,
kept lines). -/
def parse_step (st : PyStr × PyStr × PyStr × List PyStr) (line : PyStr) :
    PyStr × PyStr × PyStr × List PyStr :=
  if PATTERNS_TAG.isPrefixOf line then
    (pyStripWsEnds (replaceAll PATTERNS_TAG [] line), st.2.1, st.2.2.1, st.2.2.2)
  else if SUMMARY_TAG.isPrefixOf line then
    (st.1, pyStripWsEnds (replaceAll SUMMARY_TAG [] line), st.2.2.1, st.2.2.2)
  else if DOMINANT_TAG.isPrefixOf line then
    (st.1, st.2.1, pyStripWsEnds (replaceAll DOMINANT_TAG [] line), st.2.2.2)
  else (st.1, st.2.1, st.2.2.1, st.2.2.2 ++ [line])

/-- The parsed coaching reply. -/
structure CoachParse where
  patterns : PyStr
  summary : PyStr
  dominant : PyStr
  feedback : PyStr
deriving DecidableEq

/-- The trailer parser of `get_coaching_response`: scan the reply line by line,
extract the three trailer lines, keep the rest in order, and strip surrounding
whitespace from the joined body.  It is total: a reply without trailer lines
yields the defaults (empty patterns and summary, fallback dominant code). -/
def parse_coach_reply (full_response : PyStr) : CoachParse :=
  let st := (splitOnChar '\n' full_response).foldl parse_step ([], [], W3_CODE, [])
  { patterns := st.1, summary := st.2.1, dominant := st.2.2.1,
    feedback := pyStripWsEnds (joinWith '\n' st.2.2.2) }

/-! ### The Coaching Orchestrator and webhook model -/

/-- The external collaborators of one request: the two generative-text oracles
and the presentation adapter (`markdown_to_html`), all black boxes per the
spec.  `coachReply` receives the memory context, the metrics summary and the
draft (the pieces of the assembled prompt that vary per request). -/
structure Services where
  coachReply : PyStr → PyStr → PyStr → PyStr
  excuseReply : PyStr → PyStr
  render : PyStr → PyStr → PyStr

/-- Outcomes of the stateful external world of one request: store availability,
the session-log read, the enrichment-service reply and the two appends. -/
structure World where
  sheetsAvailable : Bool
  sessionLogRead : Except PyStr (List Row)
  recReply : Except PyStr PyStr
  sessionAppend : Except PyStr Unit
  queueAppend : Except PyStr Unit

/-- Observable external interactions of a request. -/
inductive Effect where
  | sheetRead
  | metricsComputed
  | coachCall
  | excuseCall
  | recCall
  | sheetAppend (range : PyStr) (row : Row)
deriving DecidableEq

/-- The structured coaching verdict. -/
structure CoachResult where
  feedback : PyStr
  patterns : PyStr
  summary : PyStr
  dominant_weakness : PyStr
  metrics : Option Scorecard

/-- The metrics summary interpolated into the coaching prompt (built with
`metrics.get` defaults, so it also covers the empty scorecard). -/
def metrics_summary (m : Option Scorecard) : PyStr :=
  let q := fun (f : Scorecard → ℚ) => match m with
    | some s => ratToPyStr (f s)
    | none => ratToPyStr 0
  let b := fun (f : Scorecard → Bool) => match m with
    | some s => if f s then ("True").data else ("False").data
    | none => ("None").data
  ("Scene ratio: ").data ++ q Scorecard.scene_ratio_pct ++ ("%, Qualifiers/500: ").data ++
    q Scorecard.qualifier_per_500 ++ (", Variety SD: ").data ++
    q Scorecard.sentence_variety_sd ++ (", Proper nouns/500: ").data ++
    q Scorecard.proper_nouns_per_500 ++ (", Opening strong: ").data ++
    b Scorecard.opening_strong ++ (", Closing strong: ").data ++ b Scorecard.closing_strong

/-- `get_coaching_response`: compute the metrics, build the memory context,
issue the one coaching call and parse its reply.  Also reports the external
interactions this performs. -/
def get_coaching_response (svc : Services) (draft_text : PyStr)
    (session_log : List Row) : CoachResult × List Effect :=
  let memory := build_memory_context session_log
  let metrics := compute_metrics draft_text
  let full_response := svc.coachReply memory (metrics_summary metrics) draft_text
  let p := parse_coach_reply full_response
  ({ feedback := p.feedback, patterns := p.patterns, summary := p.summary,
     dominant_weakness := p.dominant, metrics := metrics },
   [Effect.metricsComputed, Effect.coachCall])

/-- `get_no_draft_response`: the excuse path is one bare service call. -/
def get_no_draft_response (svc : Services) (reason : PyStr) : PyStr :=
  svc.excuseReply reason

/-- Fields of the reading recommendation. -/
structure RecFields where
  title : PyStr
  author : PyStr
  why : PyStr
  where_ : PyStr

def TITLE_TAG : PyStr := ("TITLE:").data
def AUTHOR_TAG : PyStr := ("AUTHOR:").data
def WHY_TAG : PyStr := ("WHY:").data
def WHERE_TAG : PyStr := ("WHERE:").data

/-- One step of the recommendation-reply scan. -/
def rec_step (st : RecFields) (line : PyStr) : RecFields :=
  if TITLE_TAG.isPrefixOf line then
    { st with title := pyStripWsEnds (replaceAll TITLE_TAG [] line) }
  else if AUTHOR_TAG.isPrefixOf line then
    { st with author := pyStripWsEnds (replaceAll AUTHOR_TAG [] line) }
  else if WHY_TAG.isPrefixOf line then
    { st with why := pyStripWsEnds (replaceAll WHY_TAG [] line) }
  else if WHERE_TAG.isPrefixOf line then
    { st with where_ := pyStripWsEnds (replaceAll WHERE_TAG [] line) }
  else st

def parse_rec_reply (text : PyStr) : RecFields :=
  (splitOnChar '\n' text).foldl rec_step ⟨[], [], [], []⟩

/-- `get_live_reading_rec`: any service failure is caught and yields no
recommendation; an ok reply is parsed defensively and a missing title counts
as none found.  (The weakness-to-problem lookup feeds only the black-box
prompt and is absorbed into the oracle.) -/
def get_live_reading_rec (recOutcome : Except PyStr PyStr) : Option RecFields :=
  match recOutcome with
  | Except.error _ => none
  | Except.ok text =>
    let r := parse_rec_reply text
    if r.title ≠ [] then some r else none

def SESSION_LOG_RANGE : PyStr := ("Session Log!A:G").data
def READING_QUEUE_RANGE : PyStr := ("Reading Queue!A:E").data
def NO_CELL : PyStr := ("No").data

/-- The detached enrichment task: one recommendation call, then best-effort
appends of the session row and (when a recommendation was found) the queue
row.  Returns the external interactions it performs; append failures are
absorbed by `append_sheet`. -/
def background_tasks (w : World) (res : CoachResult) (dt : PyStr) (wc : Nat)
    (ms : List PyStr) (today : PyStr) : List Effect :=
  let r := get_live_reading_rec w.recReply
  if w.sheetsAvailable then
    let rec_str := match r with
      | some rr => rr.title ++ (" by ").data ++ rr.author
      | none => []
    let row : Row := [today, dt, natToPyStr wc, res.patterns, res.summary,
      pyJoin ((", ").data) ms, rec_str]
    let _ := append_sheet w.sessionAppend
    let queueEffects := match r with
      | some rr =>
        if rr.title ≠ [] then
          let _ := append_sheet w.queueAppend
          [Effect.sheetAppend READING_QUEUE_RANGE
            [today, rr.title, rr.author, rr.why, NO_CELL]]
        else []
      | none => []
    [Effect.recCall] ++ [Effect.sheetAppend SESSION_LOG_RANGE row] ++ queueEffects
  else [Effect.recCall]

/-- An inbound draft request. -/
structure DraftRequest where
  body : PyStr
  sender : PyStr
  subject : PyStr

/-- The webhook outcome: rejection (400), unauthorized (403), or the 200
payload of subject and rendered body. -/
inductive DraftResponse where
  | badRequest
  | unauthorized
  | ok (subject : PyStr) (body : PyStr)
deriving DecidableEq

def COACH_SUBJECT_PREFIX : PyStr := ("Coach Feedback — ").data
def NO_DRAFT_SUBJECT : PyStr := ("No draft, Sagar.").data
def UNTITLED : PyStr := ("Untitled").data
def TITLE_SUB_PATS : List PyStr := [("Re:").data, ("Writing Coach").data]

/-- `receive_draft`: the webhook handler.  Returns the response, the
synchronous external interactions, and the interactions of the detached
enrichment thread (which runs after the response is already determined; its
trace is reported separately to model the detachment). -/
def receive_draft (sagar_email : PyStr) (w : World) (svc : Services) (today : PyStr)
    (data : Option DraftRequest) : DraftResponse × List Effect × List Effect :=
  match data with
  | none => (DraftResponse.badRequest, [], [])
  | some d =>
    let email_body := pyStripWsEnds d.body
    let sender := d.sender
    let subject := d.subject
    let allowed := sagar_email
    if allowed ≠ [] ∧ strContains (pyLower sender) (pyLower allowed) = false then
      (DraftResponse.unauthorized, [], [])
    else
      let word_count := (pySplitWs email_body).length
      let session_log := if w.sheetsAvailable then read_sheet w.sessionLogRead 6 else []
      let readEffects := if w.sheetsAvailable then [Effect.sheetRead] else []
      if 80 < word_count then
        let rc := get_coaching_response svc email_body session_log
        let result := rc.1
        let draft_title :=
          let t := pyStripWsEnds (reSubAlts TITLE_SUB_PATS subject)
          if t = [] then UNTITLED else t
        let metrics := result.metrics
        let metrics_text := format_metrics_for_email metrics
        let metrics_sheet_data := format_metrics_for_sheet metrics
        let bg := background_tasks w result draft_title word_count metrics_sheet_data today
        let html := svc.render result.feedback metrics_text
        (DraftResponse.ok (COACH_SUBJECT_PREFIX ++ draft_title) html,
         readEffects ++ rc.2, bg)
      else
        let coaching := get_no_draft_response svc email_body
        let html := svc.render coaching []
        (DraftResponse.ok NO_DRAFT_SUBJECT html, readEffects ++ [Effect.excuseCall], [])

/-! ### Concrete inputs used by witnesses and counterexamples -/

/-- A 50-token draft (one word repeated, whitespace separated). -/
def T50 : PyStr := pyJoin [' '] (List.replicate 50 (("w").data))

/-- A 101-token draft. -/
def T101 : PyStr := pyJoin [' '] (List.replicate 101 (("w").data))

/-- A 60-token draft: 50 plain filler tokens followed by 10 scene verbs. -/
def T60 : PyStr :=
  pyJoin [' '] (List.replicate 50 (("x").data) ++ List.replicate 10 (("said").data))

/-- A draft of fewer than 50 tokens. -/
def SHORT_TEXT : PyStr := ("too short to score").data

/-- An 80-token body (the at-threshold boundary). -/
def BODY80 : PyStr := pyJoin [' '] (List.replicate 80 (("w").data))

/-- An 81-token body (the just-above-threshold boundary). -/
def BODY81 : PyStr := pyJoin [' '] (List.replicate 81 (("w").data))

def ALLOWED0 : PyStr := ("sagar@example.com").data
def ERR0 : PyStr := ("boom").data

def REQ80 : DraftRequest := ⟨BODY80, ALLOWED0, ("Re: Draft").data⟩
def REQ81 : DraftRequest := ⟨BODY81, ALLOWED0, ("Re: Draft").data⟩
def REQBAD : DraftRequest := ⟨BODY81, ("intruder@elsewhere.net").data, ("Re: Draft").data⟩

/-- Constant black-box services (their replies never matter to the claims). -/
def SVC0 : Services := ⟨fun _ _ _ => [], fun _ => [], fun _ _ => []⟩

/-- A world with no spreadsheet configured. -/
def WORLD0 : World := ⟨false, Except.ok [], Except.ok [], Except.ok (), Except.ok ()⟩

/-- A world where every store interaction succeeds. -/
def WORLD_OK : World := ⟨true, Except.ok [], Except.ok [], Except.ok (), Except.ok ()⟩

/-- A world where the enrichment call and both appends fail. -/
def WORLD_BAD : World :=
  ⟨true, Except.ok [], Except.error ERR0, Except.error ERR0, Except.error ERR0⟩

def CELL : PyStr := ("c").data
def ROW5 : Row := [CELL, CELL, CELL, CELL, CELL]

/-- A six-record session history. -/
def LOG6 : List Row := List.replicate 6 ROW5

/-- A reply carrying all three trailer lines. -/
def REPLY0 : PyStr :=
  ("Line one.\nPATTERNS: W1,W3\nSUMMARY: tight draft\nDOMINANT_WEAKNESS: W1").data

/-- A trailer-free reply. -/
def REPLY1 : PyStr := ("Solid work.\nKeep going.").data

/-- A trailer-free reply beginning with a newline. -/
def NL_HELLO : PyStr := ("\nhello").data

/-- A sample scorecard. -/
def SC0 : Scorecard := ⟨50, 0, 0, 0, 0, false, false, 0⟩

/-! ## Theorems -/

/-- `round` is monotone on rationals. -/
lemma roundMono {a b : ℚ} (h : a ≤ b) : round a ≤ round b := by
  rw [round_eq, round_eq]
  exact Int.floor_mono (by linarith)

/-- Rounding a nonnegative rational to `n` decimals stays nonnegative. -/
lemma pyRound_nonneg {x : ℚ} (n : ℕ) (h : 0 ≤ x) : 0 ≤ pyRound x n := by
  unfold pyRound
  apply div_nonneg _ (by positivity)
  have h0 : round (0 : ℚ) ≤ round (x * 10 ^ n) := roundMono (by positivity)
  rw [round_zero] at h0
  exact_mod_cast h0

/-- Rounding a rational at most 100 to one decimal stays at most 100. -/
lemma pyRound_le_100 {x : ℚ} (h : x ≤ 100) : pyRound x 1 ≤ 100 := by
  unfold pyRound
  have h1 : round (x * 10 ^ 1) ≤ round ((1000 : ℤ) : ℚ) := by
    apply roundMono
    push_cast
    linarith
  rw [round_intCast] at h1
  rw [div_le_iff₀ (by norm_num)]
  calc ((round (x * 10 ^ 1) : ℤ) : ℚ) ≤ ((1000 : ℤ) : ℚ) := by exact_mod_cast h1
    _ = 100 * 10 ^ 1 := by norm_num

/-- A lexicon count over the lowered word list is at most the word count. -/
lemma countP_words_le (p : PyStr → Bool) (words : List PyStr) :
    (words_lower words).countP p ≤ words.length := by
  calc (words_lower words).countP p ≤ (words_lower words).length :=
        List.countP_le_length p
    _ = words.length := by simp [words_lower]

/-- C2: `compute_metrics` returns the empty scorecard exactly on texts of fewer
than 50 whitespace tokens: under 50 tokens the result is empty, and from 50
tokens on it is a populated scorecard. -/
theorem metrics_empty_iff_under_50 (text : PyStr) :
    ((pySplitWs text).length < 50 → compute_metrics text = none) ∧
    (50 ≤ (pySplitWs text).length → (compute_metrics text).isSome = true) := by
  constructor
  · intro h
    simp only [compute_metrics]
    rw [if_pos h]
  · intro h
    simp only [compute_metrics]
    rw [if_neg (by omega)]
    rfl

/-- C2 witness: a short text scores empty, a 50-token text scores non-empty. -/
theorem metrics_empty_iff_under_50_witness :
    compute_metrics SHORT_TEXT = none ∧ (compute_metrics T50).isSome = true :=
  ⟨(metrics_empty_iff_under_50 SHORT_TEXT).1 (by decide),
   (metrics_empty_iff_under_50 T50).2 (by decide)⟩

/-- C9: every text the classifier routes to full coaching (more than 80
whitespace tokens) yields a non-empty scorecard inside
`get_coaching_response`, because the 80-token routing threshold exceeds the
50-token emptiness threshold under the same tokenization. -/
theorem coaching_path_scorecard_nonempty (svc : Services) (session_log : List Row)
    (text : PyStr) (h : 80 < (pySplitWs text).length) :
    ((get_coaching_response svc text session_log).1.metrics).isSome = true := by
  have h50 : ¬ ((pySplitWs text).length < 50) := by omega
  simp only [get_coaching_response, compute_metrics]
  rw [if_neg h50]
  rfl

/-- C9 witness: an 81-token draft through the coaching path carries a
non-empty scorecard. -/
theorem coaching_path_scorecard_nonempty_witness :
    ((get_coaching_response SVC0 BODY81 []).1.metrics).isSome = true :=
  coaching_path_scorecard_nonempty SVC0 [] BODY81 (by decide)

/-- C10: the sheet row for an empty scorecard is exactly 7 empty cells, while
any non-empty scorecard yields exactly 8 cells, so the persisted row length
differs by one between the two cases. -/
theorem sheet_row_shape :
    format_metrics_for_sheet none = List.replicate 7 [] ∧
    (format_metrics_for_sheet none).length = 7 ∧
    ∀ m : Scorecard, (format_metrics_for_sheet (some m)).length = 8 :=
  ⟨rfl, rfl, fun _ => rfl⟩

/-- C10 witness: the two row shapes at concrete inputs. -/
theorem sheet_row_shape_witness :
    (format_metrics_for_sheet (some SC0)).length = 8 ∧
    format_metrics_for_sheet none = List.replicate 7 [] :=
  ⟨sheet_row_shape.2.2 SC0, sheet_row_shape.1⟩

/-- C3: every non-empty scorecard has `scene_ratio_pct` in `[0, 100]`,
nonnegative `qualifier_per_500` and nonnegative `concrete_abstract_ratio`;
the divisors involved — the word count and the `max`-floored abstract count —
are positive, so no metric divides by zero. -/
theorem scorecard_bounds (text : PyStr) (m : Scorecard)
    (h : compute_metrics text = some m) :
    (0 ≤ m.scene_ratio_pct ∧ m.scene_ratio_pct ≤ 100) ∧
    0 ≤ m.qualifier_per_500 ∧
    0 ≤ m.concrete_abstract_ratio ∧
    0 < (pySplitWs text).length ∧
    0 < max (abstract_count (words_lower (pySplitWs text))) 1 ∧
    (∀ ws : List PyStr, 0 < max ws.length 1) := by
  by_cases hlt : (pySplitWs text).length < 50
  · exfalso
    simp only [compute_metrics] at h
    rw [if_pos hlt] at h
    exact Option.noConfusion h
  · have hpos : 0 < (pySplitWs text).length := by omega
    have hposQ : (0 : ℚ) < ((pySplitWs text).length : ℚ) := by exact_mod_cast hpos
    simp only [compute_metrics] at h
    rw [if_neg hlt] at h
    have hm := (Option.some.injEq _ _).mp h
    subst hm
    refine ⟨⟨?_, ?_⟩, ?_, ?_, hpos, ?_, ?_⟩
    · exact pyRound_nonneg 1 (by positivity)
    · apply pyRound_le_100
      have hle : ((scene_verb_count (words_lower (pySplitWs text)) : ℕ) : ℚ) ≤
          (((pySplitWs text).length : ℕ) : ℚ) := by
        exact_mod_cast countP_words_le _ (pySplitWs text)
      rw [div_mul_eq_mul_div, div_le_iff₀ hposQ]
      nlinarith
    · exact pyRound_nonneg 1 (by positivity)
    · exact pyRound_nonneg 2 (by positivity)
    · exact lt_of_lt_of_le Nat.one_pos (Nat.le_max_right _ _)
    · intro ws
      exact lt_of_lt_of_le Nat.one_pos (Nat.le_max_right _ _)

/-- C3 witness: the bounds at a concrete 50-token draft. -/
theorem scorecard_bounds_witness :
    ∃ m, compute_metrics T50 = some m ∧
      ((0 ≤ m.scene_ratio_pct ∧ m.scene_ratio_pct ≤ 100) ∧
       0 ≤ m.qualifier_per_500 ∧
       0 ≤ m.concrete_abstract_ratio ∧
       0 < (pySplitWs T50).length ∧
       0 < max (abstract_count (words_lower (pySplitWs T50))) 1 ∧
       (∀ ws : List PyStr, 0 < max ws.length 1)) := by
  have hs : (compute_metrics T50).isSome = true := by decide
  exact ⟨(compute_metrics T50).get hs, (Option.some_get hs).symm,
    scorecard_bounds T50 _ (Option.some_get hs).symm⟩

/-- One memory-loop step appends exactly the rendering of its row. -/
lemma memory_step_eq (memory : PyStr) (row : Row) :
    memory_step memory row = memory ++ renderRow row := by
  simp only [memory_step, renderRow]
  by_cases h5 : 5 ≤ row.length
  · rw [if_pos h5, if_pos h5]
    by_cases h6 : 5 < row.length ∧ row.getD 5 [] ≠ []
    · rw [if_pos h6, if_pos h6]
      simp [List.append_assoc]
    · rw [if_neg h6, if_neg h6]
      simp [List.append_assoc]
  · rw [if_neg h5, if_neg h5]
    simp

/-- The memory fold renders its rows in order after the accumulator. -/
lemma foldl_memory_step (rows : List Row) :
    ∀ acc : PyStr, rows.foldl memory_step acc = acc ++ (rows.map renderRow).flatten := by
  induction rows with
  | nil => intro acc; simp
  | cons r rs ih =>
    intro acc
    simp only [List.foldl_cons, List.map_cons, List.flatten_cons]
    rw [memory_step_eq, ih, List.append_assoc]

/-- C5: `build_memory_context` returns the fixed first-session sentinel on an
empty history, and otherwise renders exactly the last-4 slice of the supplied
records — a suffix of the input of length at most 4, rendered in the
caller-supplied order. -/
theorem memory_context_bounded (session_log : List Row) :
    build_memory_context [] = FIRST_SESSION_SENTINEL ∧
    (session_log ≠ [] →
      build_memory_context session_log =
        MEMORY_HEADER ++ ((pySliceFromNeg 4 session_log).map renderRow).flatten) ∧
    (pySliceFromNeg 4 session_log).length ≤ 4 ∧
    pySliceFromNeg 4 session_log <:+ session_log := by
  refine ⟨rfl, ?_, ?_, ?_⟩
  · intro hne
    unfold build_memory_context
    rw [if_neg hne]
    exact foldl_memory_step _ _
  · unfold pySliceFromNeg
    rw [if_neg (by omega)]
    rw [List.length_drop]
    omega
  · unfold pySliceFromNeg
    rw [if_neg (by omega)]
    exact List.drop_suffix _ _

/-- C5 witness: the shape of the context over a six-record history. -/
theorem memory_context_bounded_witness :
    build_memory_context LOG6 =
      MEMORY_HEADER ++ ((pySliceFromNeg 4 LOG6).map renderRow).flatten ∧
    (pySliceFromNeg 4 LOG6).length ≤ 4 ∧
    pySliceFromNeg 4 LOG6 <:+ LOG6 :=
  ⟨(memory_context_bounded LOG6).2.1 (by decide),
   (memory_context_bounded LOG6).2.2.1,
   (memory_context_bounded LOG6).2.2.2⟩

/-- One parser step keeps exactly the non-trailer lines. -/
lemma parse_step_kept (st : PyStr × PyStr × PyStr × List PyStr) (l : PyStr) :
    (parse_step st l).2.2.2 = st.2.2.2 ++ (if isTrailerLine l then [] else [l]) := by
  unfold parse_step isTrailerLine
  by_cases h1 : PATTERNS_TAG.isPrefixOf l = true
  · simp [h1]
  · by_cases h2 : SUMMARY_TAG.isPrefixOf l = true
    · simp [h1, h2]
    · by_cases h3 : DOMINANT_TAG.isPrefixOf l = true
      · simp [h1, h2, h3]
      · simp [h1, h2, h3]

/-- The parser fold keeps exactly the non-trailer lines, in order. -/
lemma foldl_parse_step_kept (lines : List PyStr) :
    ∀ st : PyStr × PyStr × PyStr × List PyStr,
      (lines.foldl parse_step st).2.2.2 =
        st.2.2.2 ++ lines.filter (fun l => !isTrailerLine l) := by
  induction lines with
  | nil => intro st; simp
  | cons x xs ih =>
    intro st
    simp only [List.foldl_cons, List.filter_cons]
    rw [ih, parse_step_kept]
    by_cases hx : isTrailerLine x = true
    · simp [hx]
    · simp [hx]

/-- A non-trailer line only extends the kept lines. -/
lemma parse_step_no_trailer (st : PyStr × PyStr × PyStr × List PyStr) (l : PyStr)
    (h : isTrailerLine l = false) :
    parse_step st l = (st.1, st.2.1, st.2.2.1, st.2.2.2 ++ [l]) := by
  simp only [isTrailerLine, Bool.or_eq_false_iff] at h
  unfold parse_step
  simp [h.1.1, h.1.2, h.2]

/-- Over trailer-free lines the fold leaves the parsed fields at their
defaults and keeps every line. -/
lemma foldl_parse_step_no_trailer (lines : List PyStr)
    (h : ∀ l ∈ lines, isTrailerLine l = false) :
    ∀ st : PyStr × PyStr × PyStr × List PyStr,
      lines.foldl parse_step st = (st.1, st.2.1, st.2.2.1, st.2.2.2 ++ lines) := by
  induction lines with
  | nil => intro st; simp
  | cons x xs ih =>
    intro st
    simp only [List.foldl_cons]
    rw [parse_step_no_trailer st x (h x (by simp))]
    rw [ih (fun l hl => h l (by simp [hl]))]
    simp

/-- `splitOnPred` never returns the empty list of pieces. -/
lemma splitOnPred_ne_nil (p : Char → Bool) (l : PyStr) : splitOnPred p l ≠ [] := by
  cases l with
  | nil => simp [splitOnPred]
  | cons c cs =>
    simp only [splitOnPred]
    by_cases h : p c = true
    · simp [h]
    · rcases hs : splitOnPred p cs with _ | ⟨a, as⟩ <;> simp [h, hs]

/-- Rejoining the pieces of a one-character split restores the string. -/
lemma joinWith_splitOnChar (c : Char) (l : PyStr) :
    joinWith c (splitOnChar c l) = l := by
  unfold splitOnChar
  induction l with
  | nil => rfl
  | cons x xs ih =>
    simp only [splitOnPred]
    by_cases h : (x == c) = true
    · rw [if_pos h]
      have hx : x = c := eq_of_beq h
      obtain ⟨r, rs, hrr⟩ :=
        List.exists_cons_of_ne_nil (splitOnPred_ne_nil (fun d => d == c) xs)
      rw [hrr]
      rw [hrr] at ih
      subst hx
      cases rs with
      | nil =>
        simp only [joinWith] at ih ⊢
        simp [ih]
      | cons s ss =>
        simp only [joinWith] at ih ⊢
        simp [ih]
    · rw [if_neg h]
      obtain ⟨r, rs, hrr⟩ :=
        List.exists_cons_of_ne_nil (splitOnPred_ne_nil (fun d => d == c) xs)
      rw [hrr]
      rw [hrr] at ih
      cases rs with
      | nil =>
        simp only [joinWith] at ih ⊢
        rw [← ih]
      | cons s ss =>
        simp only [joinWith] at ih ⊢
        rw [List.cons_append, ih]

/-- C4 (amended): the trailer parser removes every line starting with one of
the three trailer tags wherever it occurs, keeps all other lines in their
original order, and never fails: the displayed body is the kept lines
rejoined and stripped of leading and trailing whitespace; a reply with zero
trailer lines keeps the default parsed fields (empty patterns and summary,
fallback dominant code `W3`) and its body is the whole reply up to that
surrounding-whitespace strip. -/
theorem trailer_parse (reply : PyStr) :
    (parse_coach_reply reply).feedback =
      pyStripWsEnds (joinWith '\n'
        ((splitOnChar '\n' reply).filter (fun l => !isTrailerLine l))) ∧
    ((∀ l ∈ splitOnChar '\n' reply, isTrailerLine l = false) →
      (parse_coach_reply reply).patterns = [] ∧
      (parse_coach_reply reply).summary = [] ∧
      (parse_coach_reply reply).dominant = W3_CODE ∧
      (parse_coach_reply reply).feedback = pyStripWsEnds reply) := by
  constructor
  · simp only [parse_coach_reply]
    rw [foldl_parse_step_kept]
    simp
  · intro h
    simp only [parse_coach_reply]
    rw [foldl_parse_step_no_trailer _ h]
    refine ⟨rfl, rfl, rfl, ?_⟩
    simp only [List.nil_append]
    rw [joinWith_splitOnChar]

/-- C4 counterexample: a trailer-free reply that begins with a newline is not
left unchanged by the parser — its leading whitespace is stripped from the
displayed body, refuting the claim that the body is unchanged whenever no
trailer line is present. -/
theorem trailer_parse_counterexample :
    (∀ l ∈ splitOnChar '\n' NL_HELLO, isTrailerLine l = false) ∧
    (parse_coach_reply NL_HELLO).feedback ≠ NL_HELLO := by
  exact ⟨by decide, by decide⟩

/-- C4 witness: the kept-lines equation on a full three-trailer reply, and
the default fields with stripped body on a trailer-free reply. -/
theorem trailer_parse_witness :
    (parse_coach_reply REPLY0).feedback =
      pyStripWsEnds (joinWith '\n'
        ((splitOnChar '\n' REPLY0).filter (fun l => !isTrailerLine l))) ∧
    ((parse_coach_reply REPLY1).patterns = [] ∧
     (parse_coach_reply REPLY1).summary = [] ∧
     (parse_coach_reply REPLY1).dominant = W3_CODE ∧
     (parse_coach_reply REPLY1).feedback = pyStripWsEnds REPLY1) :=
  ⟨(trailer_parse REPLY0).1, (trailer_parse REPLY1).2 (by decide)⟩

/-- C6 (amended): for texts of more than 100 tokens the opening/closing
strength judgments equal the spec model — specificity of the first 50 and last
50 tokens compared against the remaining middle slice; at 50 to 100 tokens the
code instead compares against the specificity of the entire token list (see
the counterexample), not the empty remainder. -/
theorem strength_middle_spec (text : PyStr)
    (h : 100 < (pySplitWs text).length) :
    ∃ m, compute_metrics text = some m ∧
      m.opening_strong = (spec_strength text).1 ∧
      m.closing_strong = (spec_strength text).2 := by
  have h50 : ¬ ((pySplitWs text).length < 50) := by omega
  have hne : ((pySplitWs text).drop 50).take ((pySplitWs text).length - 100) ≠ [] := by
    intro hnil
    have hlen := congrArg List.length hnil
    simp only [List.length_take, List.length_drop, List.length_nil] at hlen
    omega
  simp only [compute_metrics]
  rw [if_neg h50, if_pos h, if_pos hne]
  refine ⟨_, rfl, ?_, ?_⟩
  · simp only [spec_strength, spec_middle]
  · simp only [spec_strength, spec_middle]

/-- At 50 to 100 tokens the code compares the opening against the whole token
list. -/
lemma opening_strong_le_100 (text : PyStr) (h50 : 50 ≤ (pySplitWs text).length)
    (h100 : (pySplitWs text).length ≤ 100) (hne : pySplitWs text ≠ []) :
    (compute_metrics text).map Scorecard.opening_strong =
      some (decide (pyRound (specificity (pySplitWs text)) 3 ≤
        pyRound (specificity ((pySplitWs text).take 50)) 3)) := by
  simp only [compute_metrics]
  rw [if_neg (by omega : ¬ (pySplitWs text).length < 50)]
  rw [if_neg (by omega : ¬ 100 < (pySplitWs text).length)]
  rw [if_pos hne]
  rfl

set_option maxHeartbeats 2000000 in
/-- At up to 100 tokens the spec model compares against the empty remainder,
whose specificity is zero. -/
lemma spec_strength_le_100 (text : PyStr) (h100 : (pySplitWs text).length ≤ 100) :
    (spec_strength text).1 =
      decide ((0 : ℚ) ≤ pyRound (specificity ((pySplitWs text).take 50)) 3) := by
  simp only [spec_strength, spec_middle]
  rw [decide_eq_decide]
  rw [Nat.sub_eq_zero_of_le h100]
  rw [List.take_zero]
  rw [(show specificity ([] : List PyStr) = 0 by
        simp [specificity, scene_verb_count, abstract_count, words_lower])]
  rw [(show pyRound 0 3 = 0 by simp [pyRound])]

set_option maxHeartbeats 2000000 in
/-- C6 counterexample: a 60-token draft (50 plain tokens then 10 scene verbs)
has at least 50 tokens, yet the code judges its opening weak while the
spec model — middle always the tokens excluding the first and last 50 —
judges it strong, because the code compares against the whole text below
101 tokens. -/
theorem strength_middle_counterexample :
    50 ≤ (pySplitWs T60).length ∧
    (compute_metrics T60).map Scorecard.opening_strong = some false ∧
    (spec_strength T60).1 = true := by
  have hlen : (pySplitWs T60).length = 60 := by decide
  have hopen : specificity ((pySplitWs T60).take 50) = 0 := by
    simp only [specificity]
    rw [(by decide : ((pySplitWs T60).take 50).enum.countP specificity_proper = 0),
        (by decide : scene_verb_count (words_lower ((pySplitWs T60).take 50)) = 0),
        (by decide : abstract_count (words_lower ((pySplitWs T60).take 50)) = 0)]
    norm_num
  have hmid : specificity (pySplitWs T60) = 1 / 6 := by
    simp only [specificity]
    rw [(by decide : (pySplitWs T60).enum.countP specificity_proper = 0),
        (by decide : scene_verb_count (words_lower (pySplitWs T60)) = 10),
        (by decide : abstract_count (words_lower (pySplitWs T60)) = 0),
        (by decide : max (pySplitWs T60).length 1 = 60)]
    norm_num
  have hround0 : pyRound 0 3 = 0 := by
    simp [pyRound]
  have hround6 : pyRound (1 / 6) 3 = 167 / 1000 := by
    unfold pyRound
    rw [round_eq]
    rw [(show (1 : ℚ) / 6 * 10 ^ 3 + 1 / 2 = 1003 / 6 by norm_num)]
    rw [(show ⌊(1003 / 6 : ℚ)⌋ = 167 by rw [Int.floor_eq_iff]; norm_num)]
    norm_num
  refine ⟨by omega, ?_, ?_⟩
  · rw [opening_strong_le_100 T60 (by omega) (by omega) (by decide)]
    rw [Option.some_inj, decide_eq_false_iff_not]
    rw [hmid, hopen, hround6, hround0]
    norm_num
  · rw [spec_strength_le_100 T60 (by omega)]
    rw [decide_eq_true_eq]
    rw [hopen, hround0]

/-- C6 witness: the amended agreement at a concrete 101-token draft. -/
theorem strength_middle_spec_witness :
    ∃ m, compute_metrics T101 = some m ∧
      m.opening_strong = (spec_strength T101).1 ∧
      m.closing_strong = (spec_strength T101).2 :=
  strength_middle_spec T101 (by decide)

/-- C1: for an accepted request (sender authorized), classification is the
pure token-count threshold: more than 80 whitespace tokens issues the one
coaching call (and no excuse call) and answers with the coach-feedback
subject; 80 or fewer issues the one excuse call (and no coaching call) and
answers with the no-draft subject. -/
theorem classification_threshold (sagar_email : PyStr) (w : World) (svc : Services)
    (today : PyStr) (d : DraftRequest)
    (hauth : sagar_email = [] ∨
      strContains (pyLower d.sender) (pyLower sagar_email) = true) :
    (80 < (pySplitWs (pyStripWsEnds d.body)).length →
      (receive_draft sagar_email w svc today (some d)).2.1 =
        (if w.sheetsAvailable then [Effect.sheetRead] else []) ++
          [Effect.metricsComputed, Effect.coachCall] ∧
      ∃ title body, (receive_draft sagar_email w svc today (some d)).1 =
        DraftResponse.ok (COACH_SUBJECT_PREFIX ++ title) body) ∧
    ((pySplitWs (pyStripWsEnds d.body)).length ≤ 80 →
      (receive_draft sagar_email w svc today (some d)).2.1 =
        (if w.sheetsAvailable then [Effect.sheetRead] else []) ++ [Effect.excuseCall] ∧
      ∃ body, (receive_draft sagar_email w svc today (some d)).1 =
        DraftResponse.ok NO_DRAFT_SUBJECT body) := by
  have hguard : ¬ (sagar_email ≠ [] ∧
      strContains (pyLower d.sender) (pyLower sagar_email) = false) := by
    rcases hauth with h | h
    · intro hc
      exact hc.1 h
    · intro hc
      rw [h] at hc
      exact Bool.noConfusion hc.2
  constructor
  · intro hwc
    simp only [receive_draft]
    rw [if_neg hguard, if_pos hwc]
    exact ⟨rfl, _, _, rfl⟩
  · intro hwc
    simp only [receive_draft]
    rw [if_neg hguard, if_neg (by omega : ¬ 80 < (pySplitWs (pyStripWsEnds d.body)).length)]
    exact ⟨rfl, _, rfl⟩

/-- C1 witness: the threshold at both boundary values, an 81-token and an
80-token body. -/
theorem classification_threshold_witness :
    ((receive_draft [] WORLD0 SVC0 [] (some REQ81)).2.1 =
        (if WORLD0.sheetsAvailable then [Effect.sheetRead] else []) ++
          [Effect.metricsComputed, Effect.coachCall] ∧
      ∃ title body, (receive_draft [] WORLD0 SVC0 [] (some REQ81)).1 =
        DraftResponse.ok (COACH_SUBJECT_PREFIX ++ title) body) ∧
    ((receive_draft [] WORLD0 SVC0 [] (some REQ80)).2.1 =
        (if WORLD0.sheetsAvailable then [Effect.sheetRead] else []) ++ [Effect.excuseCall] ∧
      ∃ body, (receive_draft [] WORLD0 SVC0 [] (some REQ80)).1 =
        DraftResponse.ok NO_DRAFT_SUBJECT body) :=
  ⟨(classification_threshold [] WORLD0 SVC0 [] REQ81 (Or.inl rfl)).1 (by decide),
   (classification_threshold [] WORLD0 SVC0 [] REQ80 (Or.inl rfl)).2 (by decide)⟩

/-- C7: when an allowed sender identity is configured and the request sender
does not contain it (case-insensitively), the request is rejected at once:
the response is the unauthorized rejection and both the synchronous and the
detached traces are empty — no store read, no metrics, no service call, no
append. -/
theorem sender_mismatch_rejected (sagar_email : PyStr) (w : World) (svc : Services)
    (today : PyStr) (d : DraftRequest) (hne : sagar_email ≠ [])
    (hm : strContains (pyLower d.sender) (pyLower sagar_email) = false) :
    receive_draft sagar_email w svc today (some d) =
      (DraftResponse.unauthorized, [], []) := by
  simp only [receive_draft]
  rw [if_pos ⟨hne, hm⟩]

/-- C7 witness: a concrete mismatched sender is rejected with no effects. -/
theorem sender_mismatch_rejected_witness :
    receive_draft ALLOWED0 WORLD0 SVC0 [] (some REQBAD) =
      (DraftResponse.unauthorized, [], []) :=
  sender_mismatch_rejected ALLOWED0 WORLD0 SVC0 [] REQBAD (by decide) (by decide)

/-- C8: store failures are absorbed locally: a failed read yields the empty
history instead of an exception, a failed append returns normally, and the
response and synchronous trace of `receive_draft` are independent of the
enrichment-call and append outcomes (they depend only on store availability
and the session-log read). -/
theorem store_failures_absorbed :
    (∀ (e : PyStr) (n : Nat), read_sheet (Except.error e) n = []) ∧
    (∀ a : Except PyStr Unit, append_sheet a = Except.ok ()) ∧
    (∀ (sagar_email today : PyStr) (svc : Services) (data : Option DraftRequest)
        (w₁ w₂ : World),
      w₁.sheetsAvailable = w₂.sheetsAvailable →
      w₁.sessionLogRead = w₂.sessionLogRead →
      (receive_draft sagar_email w₁ svc today data).1 =
        (receive_draft sagar_email w₂ svc today data).1 ∧
      (receive_draft sagar_email w₁ svc today data).2.1 =
        (receive_draft sagar_email w₂ svc today data).2.1) := by
  refine ⟨fun e n => rfl, fun a => ?_, ?_⟩
  · cases a with
    | ok u => rfl
    | error e => rfl
  · intro em td svc data w₁ w₂ h1 h2
    obtain ⟨a₁, r₁, x₁, y₁, z₁⟩ := w₁
    obtain ⟨a₂, r₂, x₂, y₂, z₂⟩ := w₂
    simp only at h1 h2
    subst h1
    subst h2
    cases data with
    | none => exact ⟨rfl, rfl⟩
    | some d =>
      by_cases hg : em ≠ [] ∧ strContains (pyLower d.sender) (pyLower em) = false
      · constructor <;> simp [receive_draft, hg]
      · by_cases hwc : 80 < (pySplitWs (pyStripWsEnds d.body)).length
        · constructor <;> simp [receive_draft, hg, hwc]
        · constructor <;> simp [receive_draft, hg, hwc]

/-- C8 witness: concrete failing read and append, and the response and
synchronous trace unchanged between an all-ok world and one whose enrichment
call and appends all fail. -/
theorem store_failures_absorbed_witness :
    read_sheet (Except.error ERR0) 6 = [] ∧
    append_sheet (Except.error ERR0) = Except.ok () ∧
    ((receive_draft ALLOWED0 WORLD_OK SVC0 [] (some REQ81)).1 =
       (receive_draft ALLOWED0 WORLD_BAD SVC0 [] (some REQ81)).1 ∧
     (receive_draft ALLOWED0 WORLD_OK SVC0 [] (some REQ81)).2.1 =
       (receive_draft ALLOWED0 WORLD_BAD SVC0 [] (some REQ81)).2.1) :=
  ⟨store_failures_absorbed.1 ERR0 6,
   store_failures_absorbed.2.1 (Except.error ERR0),
   store_failures_absorbed.2.2 ALLOWED0 [] SVC0 (some REQ81) WORLD_OK WORLD_BAD rfl rfl⟩

end WritingCoach
